import Mathlib

/-!
Shallow embedding of the ST7789 display driver (`src/display.rs`).

The driver's observable behaviour is the sequence of SPI transactions it
performs: single command bytes (`send_command`) and data payloads
(`send_data`).  We model a transaction as an `Event` and each driver
operation as a function from the driver state (`Display`) to the new state
paired with the list of emitted events.  The Rust code runs on a `u16`
machine-word for coordinates (release-mode wrapping arithmetic) and `u32`
for colors, so coordinates are `Nat` combined with explicit
mod-2^16 wrapping helpers, and byte extraction uses shifts and masks as in
the source.
-/

namespace ST7789

/-- The 16-bit wrap-around modulus (`u16` arithmetic in the Rust source). -/
def U16 : Nat := 65536

/-- Wrapping 16-bit addition, as Rust release-mode `u16` `+`. -/
def add16 (a b : Nat) : Nat := (a + b) % U16

/-- Wrapping 16-bit subtraction, as Rust release-mode `u16` `-`. -/
def sub16 (a b : Nat) : Nat := (a + U16 - b % U16) % U16

/-- Wrapping 16-bit multiplication, as Rust release-mode `u16` `*`. -/
def mul16 (a b : Nat) : Nat := (a * b) % U16

/-- One observable SPI transaction: a command byte or a data payload. -/
inductive Event where
  | cmd (code : Nat)
  | data (bytes : List Nat)
deriving DecidableEq, Repr

namespace DisplayCommand

/-- Column address set (`DisplayCommand::CASET = 0x2A`). -/
def CASET : Nat := 0x2A

/-- Row address set (`DisplayCommand::RASET = 0x2B`). -/
def RASET : Nat := 0x2B

/-- Memory write (`DisplayCommand::RAMWR = 0x2C`). -/
def RAMWR : Nat := 0x2C

/-- Interface pixel format (`DisplayCommand::COLMOD = 0x3A`). -/
def COLMOD : Nat := 0x3A

end DisplayCommand

namespace DisplayColorMode

/-- Wire code for 12 bits/pixel (`DisplayColorMode::BPP12 = 0b00000011`). -/
def BPP12 : Nat := 0b00000011

/-- Wire code for 16 bits/pixel (`DisplayColorMode::BPP16 = 0b00000101`). -/
def BPP16 : Nat := 0b00000101

/-- Wire code for 18 bits/pixel (`DisplayColorMode::BPP18 = 0b00000110`). -/
def BPP18 : Nat := 0b00000110

/-- Wire code for 16M truncated (`DisplayColorMode::BPP16M = 0b00000111`). -/
def BPP16M : Nat := 0b00000111

/-- Wire code for 65K RGB interface (`DisplayColorMode::RGB65K = 0b01010000`). -/
def RGB65K : Nat := 0b01010000

/-- Wire code for 262K RGB interface (`DisplayColorMode::RGB262K = 0b01100000`). -/
def RGB262K : Nat := 0b01100000

end DisplayColorMode

/-- The stored color-mode selector (`DisplayColorModeBPP`); `UNKNOWN` is the
unset sentinel. -/
inductive DisplayColorModeBPP where
  | BPP12
  | BPP16
  | BPP18
  | BPP16M
  | UNKNOWN
deriving DecidableEq, Repr

/-- Text-rendering style state (`DisplayTextData`). -/
structure DisplayTextData where
  background_color : Option Nat
  foreground_color : Nat
  pixel_height : Nat
  pixel_width : Nat
deriving DecidableEq, Repr

/-- Driver state (`Display`), restricted to the fields the protocol logic
reads or writes: pins and the SPI handle carry no protocol-visible state
beyond the event stream. -/
structure Display where
  bpp : DisplayColorModeBPP
  height : Nat
  text : DisplayTextData
  width : Nat
deriving DecidableEq, Repr

/-- `Display::send_command`: one command byte on the wire, no state change. -/
def send_command (d : Display) (command : Nat) : Display × List Event :=
  (d, [Event.cmd command])

/-- `Display::send_data`: one data payload on the wire, no state change. -/
def send_data (d : Display) (bytes : List Nat) : Display × List Event :=
  (d, [Event.data bytes])

/-- `Display::set_columns`: rejects `start > end || end >= width` with no
command and no state change; otherwise CASET with big-endian 16-bit
start/end parameter bytes. -/
def set_columns (d : Display) (start end_ : Nat) : Display × List Event :=
  (d,
    if start > end_ ∨ end_ ≥ d.width then []
    else
      [Event.cmd DisplayCommand.CASET,
       Event.data [(start >>> 8) % 256, start &&& 0xFF,
                   (end_ >>> 8) % 256, end_ &&& 0xFF]])

/-- `Display::set_rows`: rejects `start > end || end >= height` with no
command and no state change; otherwise RASET with big-endian 16-bit
start/end parameter bytes. -/
def set_rows (d : Display) (start end_ : Nat) : Display × List Event :=
  (d,
    if start > end_ ∨ end_ ≥ d.height then []
    else
      [Event.cmd DisplayCommand.RASET,
       Event.data [(start >>> 8) % 256, start &&& 0xFF,
                   (end_ >>> 8) % 256, end_ &&& 0xFF]])

/-- `Display::set_window`: `set_columns`, then `set_rows`, then RAMWR,
unconditionally. -/
def set_window (d : Display) (start_x start_y end_x end_y : Nat) :
    Display × List Event :=
  (d, (set_columns d start_x end_x).2 ++ (set_rows d start_y end_y).2 ++
      [Event.cmd DisplayCommand.RAMWR])

/-- `Display::set_color_mode`: COLMOD with the mode byte. -/
def set_color_mode (d : Display) (mode : Nat) : Display × List Event :=
  (d, [Event.cmd DisplayCommand.COLMOD, Event.data [mode]])

/-- `Display::set_bpp`: stores the mode, then maps it to a wire code
(including the source's 18-bit arm that reuses the 12-bit depth bits) and
issues COLMOD. -/
def set_bpp (d : Display) (bpp : DisplayColorModeBPP) : Display × List Event :=
  let d' : Display := { d with bpp := bpp }
  let color_mode : Nat :=
    match bpp with
    | DisplayColorModeBPP.BPP12 =>
        DisplayColorMode.RGB65K ||| DisplayColorMode.BPP12
    | DisplayColorModeBPP.BPP16 =>
        DisplayColorMode.RGB65K ||| DisplayColorMode.BPP16
    | DisplayColorModeBPP.BPP16M =>
        DisplayColorMode.RGB65K ||| DisplayColorMode.BPP16M
    | DisplayColorModeBPP.BPP18 =>
        DisplayColorMode.RGB262K ||| DisplayColorMode.BPP12
    | DisplayColorModeBPP.UNKNOWN =>
        DisplayColorMode.RGB65K ||| DisplayColorMode.BPP16
  (d', (set_color_mode d' color_mode).2)

/-- `draw_solid_rect` clamp step for `x`: `if x >= width { x = width - 1 }`. -/
def clampX (d : Display) (x : Nat) : Nat :=
  if x ≥ d.width then sub16 d.width 1 else x

/-- `draw_solid_rect` clamp step for `y`: `if y >= height { y = height - 1 }`. -/
def clampY (d : Display) (y : Nat) : Nat :=
  if y ≥ d.height then sub16 d.height 1 else y

/-- `draw_solid_rect` clamp step for `width` (runs after `x` was clamped):
`if x + width >= self.width { width = self.width - x }`. -/
def clampW (d : Display) (x w : Nat) : Nat :=
  if add16 (clampX d x) w ≥ d.width then sub16 d.width (clampX d x) else w

/-- `draw_solid_rect` clamp step for `height` (runs after `y` was clamped):
`if y + height >= self.height { height = self.height - y }`. -/
def clampH (d : Display) (y h : Nat) : Nat :=
  if add16 (clampY d y) h ≥ d.height then sub16 d.height (clampY d y) else h

/-- The column end coordinate `x + width - 1` that `draw_solid_rect` passes
to `set_window`, in wrapping 16-bit arithmetic, after clamping. -/
def rectX1 (d : Display) (x w : Nat) : Nat :=
  sub16 (add16 (clampX d x) (clampW d x w)) 1

/-- The row end coordinate `y + height - 1` that `draw_solid_rect` passes
to `set_window`, in wrapping 16-bit arithmetic, after clamping. -/
def rectY1 (d : Display) (y h : Nat) : Nat :=
  sub16 (add16 (clampY d y) (clampH d y h)) 1

/-- The per-pixel payload `buf[0..bytes_per_pixel]` assembled by
`draw_solid_rect` for the active color mode (`BPP12` and the unreachable
`UNKNOWN` arm leave `bytes_per_pixel = 0`, an empty slice). -/
def packPixel (bpp : DisplayColorModeBPP) (color : Nat) : List Nat :=
  match bpp with
  | DisplayColorModeBPP.BPP12 => []
  | DisplayColorModeBPP.BPP16 =>
      [(color >>> 8) &&& 0xFF, (color >>> 0) &&& 0xFF]
  | DisplayColorModeBPP.BPP18 =>
      [(color >>> 16) &&& 0xFF, (color >>> 8) &&& 0xFF, (color >>> 0) &&& 0xFF]
  | DisplayColorModeBPP.BPP16M =>
      [(color >>> 16) &&& 0xFF, (color >>> 8) &&& 0xFF, (color >>> 0) &&& 0xFF]
  | DisplayColorModeBPP.UNKNOWN => []

/-- `pixels_count = width * height` in `draw_solid_rect`, a wrapping `u16`
product of the clamped width and height. -/
def rectPixelCount (d : Display) (x y w h : Nat) : Nat :=
  mul16 (clampW d x w) (clampH d y h)

/-- `Display::draw_solid_rect`: no-op on the `UNKNOWN` sentinel; otherwise
clamp, program the window, and send one `send_data` per pixel. -/
def draw_solid_rect (d : Display) (x y w h color : Nat) :
    Display × List Event :=
  (d,
    if d.bpp = DisplayColorModeBPP.UNKNOWN then []
    else
      (set_window d (clampX d x) (clampY d y)
          (rectX1 d x w) (rectY1 d y h)).2 ++
      List.replicate (rectPixelCount d x y w h)
        (Event.data (packPixel d.bpp color)))

/-- `Display::fill`: `draw_solid_rect(0, 0, width, height, color)`. -/
def fill (d : Display) (color : Nat) : Display × List Event :=
  draw_solid_rect d 0 0 d.width d.height color

/-- Modelled from the spec: the bitmap font table `crate::font::FONT` is not
among the provided sources; the spec describes it as an externally supplied
indexable table mapping a character code to an 8-row glyph bitmap (one byte
per row, MSB = leftmost column).  We therefore parameterize the text
renderer by an arbitrary such table, a glyph being its list of row bytes. -/
abbrev Font : Type := List (List Nat)

/-- Modelled from the spec: total lookup `FONT[font_index]` into the
externally supplied font table; out-of-range indexing, undefined in the
spec, is the `none` branch of a total embedding. -/
def fontLookup (font : Font) (i : Nat) : Option (List Nat) :=
  List.get? font i

/-- Inner column loop of `draw_text`: for one glyph row byte, visit bit
columns 7 down to 0; a set bit draws a foreground block, otherwise a
configured background color draws a background block; the cursor advances
by `pixel_width` per column.  Returns the emitted events and final
`render_x`. -/
def drawGlyphRowCols (d : Display) (char_row ry : Nat) :
    List Nat → Nat → List Event × Nat
  | [], rx => ([], rx)
  | col :: cols, rx =>
    let evs : List Event :=
      if char_row &&& (1 <<< col) ≠ 0 then
        (draw_solid_rect d rx ry d.text.pixel_width d.text.pixel_height
          d.text.foreground_color).2
      else if d.text.background_color ≠ none then
        (draw_solid_rect d rx ry d.text.pixel_width d.text.pixel_height
          (d.text.background_color.getD 0)).2
      else []
    let p := drawGlyphRowCols d char_row ry cols (add16 rx d.text.pixel_width)
    (evs ++ p.1, p.2)

/-- Row loop of `draw_text` over a glyph's row bytes: after each row's 8
columns the cursor retreats by `char_width` and descends by
`pixel_height`.  Returns the emitted events and the final cursor. -/
def drawGlyphRows (d : Display) (char_width : Nat) :
    List Nat → Nat → Nat → List Event × Nat × Nat
  | [], rx, ry => ([], rx, ry)
  | row :: rows, rx, ry =>
    let q := drawGlyphRowCols d row ry [7, 6, 5, 4, 3, 2, 1, 0] rx
    let p :=
      drawGlyphRows d char_width rows (sub16 q.2 char_width)
        (add16 ry d.text.pixel_height)
    (q.1 ++ p.1, p.2)

/-- Character loop of `draw_text`: code `0x0A` resets `render_x` to the
starting `x` and advances `render_y` by `char_height` without drawing;
any other code is looked up in the font table (a failing lookup is the
out-of-bounds branch) and its glyph rendered, after which the cursor moves
one `char_width` right and back up `char_height`. -/
def draw_text_go (d : Display) (font : Font) (x char_width char_height : Nat) :
    List Nat → Nat → Nat → Option (List Event)
  | [], _, _ => some []
  | c :: cs, rx, ry =>
    if c = 0x0A then
      draw_text_go d font x char_width char_height cs x (add16 ry char_height)
    else
      (fontLookup font c).bind fun glyph =>
        (draw_text_go d font x char_width char_height cs
            (add16 (drawGlyphRows d char_width glyph rx ry).2.1 char_width)
            (sub16 (drawGlyphRows d char_width glyph rx ry).2.2
              char_height)).map
          fun rest => (drawGlyphRows d char_width glyph rx ry).1 ++ rest

/-- `Display::draw_text`: renders `text` (its character codes) from `(x, y)`
with `char_width = 8 * pixel_width` and `char_height = 8 * pixel_height`
(wrapping `u16` products). -/
def draw_text (d : Display) (font : Font) (x y : Nat) (text : List Nat) :
    Option (List Event) :=
  draw_text_go d font x (mul16 8 d.text.pixel_width)
    (mul16 8 d.text.pixel_height) text x y

/-- A 240x240 16-bit display state as configured by the repository's demo
(`main.rs` constructs the display with width 240, height 240, BPP16; the
text style is the constructor's default). -/
def D240 : Display :=
  { bpp := DisplayColorModeBPP.BPP16
    height := 240
    text :=
      { background_color := none
        foreground_color := 0xFFFFFFFF
        pixel_height := 1
        pixel_width := 1 }
    width := 240 }

/-- The same state with the color mode left at the unset sentinel. -/
def DUNK : Display :=
  { D240 with bpp := DisplayColorModeBPP.UNKNOWN }

theorem add16_of_lt (a b : Nat) (h : a + b < U16) : add16 a b = a + b := by
  unfold add16 U16 at *
  omega

theorem sub16_of_le (a b : Nat) (hba : b ≤ a) (ha : a < U16) :
    sub16 a b = a - b := by
  unfold sub16 U16 at *
  omega

theorem add16_self_of_lt (a : Nat) (h : a < U16) : add16 a 0 = a := by
  unfold add16 U16 at *
  omega

theorem sub16_one (a : Nat) (h : a < U16) :
    sub16 a 1 = if a = 0 then 65535 else a - 1 := by
  unfold sub16 U16 at *
  split <;> omega

theorem shiftRight8_eq_div (a : Nat) : a >>> 8 = a / 256 := by
  simp [Nat.shiftRight_eq_div_pow]

theorem and255_eq_mod (a : Nat) : a &&& 0xFF = a % 256 :=
  Nat.and_pow_two_sub_one_eq_mod a 8

/-- C2: with width = height = 240 and 16-bit color mode, `fill 0` emits
exactly one CASET(0,239) + RASET(0,239) + RAMWR command triple followed by
240*240 two-byte data writes, each `(0x00, 0x00)`; and for every display
state and color, `fill color` is `draw_solid_rect 0 0 width height color`. -/
theorem fill_240_blank_trace :
    (fill D240 0).2 =
      [Event.cmd DisplayCommand.CASET, Event.data [0, 0, 0, 239],
       Event.cmd DisplayCommand.RASET, Event.data [0, 0, 0, 239],
       Event.cmd DisplayCommand.RAMWR] ++
      List.replicate (240 * 240) (Event.data [0x00, 0x00]) ∧
    ∀ (d : Display) (color : Nat),
      fill d color = draw_solid_rect d 0 0 d.width d.height color :=
  ⟨rfl, fun _ _ => rfl⟩

/-- C8: with the color mode at the unset sentinel, `draw_solid_rect` (and
hence `fill`) emits no command, sends no data, and leaves the state
unchanged. -/
theorem draw_unknown_is_noop (d : Display) (x y w h color : Nat)
    (hb : d.bpp = DisplayColorModeBPP.UNKNOWN) :
    draw_solid_rect d x y w h color = (d, []) ∧ fill d color = (d, []) := by
  constructor
  · unfold draw_solid_rect
    rw [if_pos hb]
  · unfold fill draw_solid_rect
    rw [if_pos hb]

/-- C8 witness: concrete sentinel-state draw is a no-op. -/
theorem draw_unknown_is_noop_witness :
    draw_solid_rect DUNK 5 5 10 10 123 = (DUNK, []) :=
  (draw_unknown_is_noop DUNK 5 5 10 10 123 rfl).1

/-- C5 counterexample: passing the sentinel itself to `set_bpp` stores the
sentinel, so the unset sentinel IS reachable through `set_bpp`. -/
theorem set_bpp_sentinel_reachable :
    ((set_bpp D240 DisplayColorModeBPP.UNKNOWN).1).bpp =
      DisplayColorModeBPP.UNKNOWN := rfl

/-- C5 amended: `set_bpp` stores exactly the mode it was passed, so a
subsequent query returns that mode for every variant; the sentinel is
reachable through `set_bpp` only by passing the sentinel itself. -/
theorem set_bpp_stores_mode (d : Display) (bpp : DisplayColorModeBPP) :
    ((set_bpp d bpp).1).bpp = bpp ∧
    (bpp ≠ DisplayColorModeBPP.UNKNOWN →
      ((set_bpp d bpp).1).bpp ≠ DisplayColorModeBPP.UNKNOWN) :=
  ⟨rfl, fun h => h⟩

/-- C5 witness: a concrete defined variant round-trips and is not the
sentinel. -/
theorem set_bpp_stores_mode_witness :
    ((set_bpp D240 DisplayColorModeBPP.BPP18).1).bpp ≠
      DisplayColorModeBPP.UNKNOWN :=
  (set_bpp_stores_mode D240 DisplayColorModeBPP.BPP18).2 (by decide)

/-- C3 counterexample: in 16-bit mode the packed bytes for color
`0x123456` are `(0x34, 0x56)` — bits 15-8 and 7-0 — not `(0x00, color &
0xFF)` as the claim literally states. -/
theorem bpp16_packing_not_high_zero :
    packPixel DisplayColorModeBPP.BPP16 0x123456 = [0x34, 0x56] ∧
    packPixel DisplayColorModeBPP.BPP16 0x123456 ≠
      [0x00, 0x123456 &&& 0xFF] := by
  decide

/-- C3 amended: in 16-bit mode `draw_solid_rect` packs every pixel as the
two wire bytes `((color >>> 8) &&& 0xFF, color &&& 0xFF)` — a raw
truncation of bits 15-0 of the 32-bit input, not a 5-6-5 conversion. -/
theorem draw_solid_rect_bpp16_packing (d : Display) (x y w h color : Nat)
    (hb : d.bpp = DisplayColorModeBPP.BPP16) :
    (draw_solid_rect d x y w h color).2 =
      (set_window d (clampX d x) (clampY d y)
          (rectX1 d x w) (rectY1 d y h)).2 ++
      List.replicate (rectPixelCount d x y w h)
        (Event.data [(color >>> 8) &&& 0xFF, color &&& 0xFF]) := by
  unfold draw_solid_rect
  rw [hb]
  simp [packPixel]

/-- C3 witness: the amended packing at a concrete color. -/
theorem draw_solid_rect_bpp16_packing_witness :
    (draw_solid_rect D240 0 0 1 1 0x123456).2 =
      (set_window D240 0 0 0 0).2 ++
      List.replicate 1 (Event.data [0x34, 0x56]) :=
  (draw_solid_rect_bpp16_packing D240 0 0 1 1 0x123456 rfl).trans (by decide)

/-- C7: `draw_text` draws nothing for character code 0x0A — the rasterizer
is never invoked for it — and instead resets the horizontal cursor to the
starting `x`, advances the vertical cursor by exactly `8 * pixel_height`
(the wrapping 16-bit product), and continues with the remaining text. -/
theorem draw_text_newline (d : Display) (font : Font) (x y : Nat)
    (cs : List Nat) (rx ry : Nat) :
    draw_text_go d font x (mul16 8 d.text.pixel_width)
        (mul16 8 d.text.pixel_height) (0x0A :: cs) rx ry =
      draw_text_go d font x (mul16 8 d.text.pixel_width)
        (mul16 8 d.text.pixel_height) cs x
        (add16 ry (mul16 8 d.text.pixel_height)) ∧
    draw_text d font x y (0x0A :: cs) =
      draw_text_go d font x (mul16 8 d.text.pixel_width)
        (mul16 8 d.text.pixel_height) cs x
        (add16 y (mul16 8 d.text.pixel_height)) :=
  ⟨rfl, rfl⟩

/-- C4: `set_columns`/`set_rows` emit no command, send no data and leave
the state unchanged whenever `start > end` or `end` reaches the
corresponding dimension; on success they emit the CASET/RASET command
followed by exactly four parameter bytes: big-endian 16-bit start then
big-endian 16-bit end. -/
theorem set_columns_set_rows_validation (d : Display) (start end_ : Nat)
    (hW : d.width ≤ U16) (hH : d.height ≤ U16) :
    ((start > end_ ∨ end_ ≥ d.width) → set_columns d start end_ = (d, [])) ∧
    (start ≤ end_ → end_ < d.width →
      set_columns d start end_ =
        (d, [Event.cmd DisplayCommand.CASET,
             Event.data [start / 256, start % 256,
                         end_ / 256, end_ % 256]])) ∧
    ((start > end_ ∨ end_ ≥ d.height) → set_rows d start end_ = (d, [])) ∧
    (start ≤ end_ → end_ < d.height →
      set_rows d start end_ =
        (d, [Event.cmd DisplayCommand.RASET,
             Event.data [start / 256, start % 256,
                         end_ / 256, end_ % 256]])) := by
  have hu : U16 = 65536 := rfl
  refine ⟨?_, ?_, ?_, ?_⟩
  · intro hrej
    unfold set_columns
    rw [if_pos hrej]
  · intro h1 h2
    unfold set_columns
    rw [if_neg (by omega)]
    rw [shiftRight8_eq_div, shiftRight8_eq_div, and255_eq_mod, and255_eq_mod]
    rw [Nat.mod_eq_of_lt (show start / 256 < 256 by omega),
        Nat.mod_eq_of_lt (show end_ / 256 < 256 by omega)]
  · intro hrej
    unfold set_rows
    rw [if_pos hrej]
  · intro h1 h2
    unfold set_rows
    rw [if_neg (by omega)]
    rw [shiftRight8_eq_div, shiftRight8_eq_div, and255_eq_mod, and255_eq_mod]
    rw [Nat.mod_eq_of_lt (show start / 256 < 256 by omega),
        Nat.mod_eq_of_lt (show end_ / 256 < 256 by omega)]

/-- C4 witness: a rejected and an accepted column programming at concrete
inputs (note 300 ≥ width rejects even though 5 ≤ 300). -/
theorem set_columns_set_rows_validation_witness :
    set_columns D240 5 300 = (D240, []) ∧
    set_columns D240 1 239 =
      (D240, [Event.cmd DisplayCommand.CASET,
              Event.data [0, 1, 0, 239]]) :=
  ⟨(set_columns_set_rows_validation D240 5 300 (by decide) (by decide)).1
      (Or.inr (by decide)),
   (set_columns_set_rows_validation D240 1 239 (by decide) (by decide)).2.1
      (by decide) (by decide)⟩

/-- C6: `set_window` always issues the memory-write command — it is the
last event of every call — and when both the column and the row sub-call
are rejected by bounds validation, the call still emits exactly the
memory-write command (against whatever window the device retains). -/
theorem set_window_always_writes (d : Display) (x0 y0 x1 y1 : Nat) :
    Event.cmd DisplayCommand.RAMWR ∈ (set_window d x0 y0 x1 y1).2 ∧
    (set_window d x0 y0 x1 y1).2.getLast? =
      some (Event.cmd DisplayCommand.RAMWR) ∧
    ((x0 > x1 ∨ x1 ≥ d.width) → (y0 > y1 ∨ y1 ≥ d.height) →
      set_window d x0 y0 x1 y1 = (d, [Event.cmd DisplayCommand.RAMWR])) := by
  refine ⟨by simp [set_window], by simp [set_window], ?_⟩
  intro h1 h2
  unfold set_window set_columns set_rows
  rw [if_pos h1, if_pos h2]
  rfl

/-- C6 witness: both sub-calls rejected at concrete inputs, RAMWR still
issued alone. -/
theorem set_window_always_writes_witness :
    set_window D240 5 5 3 3 = (D240, [Event.cmd DisplayCommand.RAMWR]) :=
  (set_window_always_writes D240 5 5 3 3).2.2 (Or.inl (by decide))
    (Or.inl (by decide))

/-- C1 counterexample: at `(x, y, w, h) = (0, 0, 0, 1)` on the 240x240
display — an input with `x < width` and `y < height` — the wrapping
computation `x + w - 1` makes the programmed column end 65535, which is
out of bounds and causes `set_columns` inside `set_window` to reject. -/
theorem draw_solid_rect_window_out_of_bounds :
    rectX1 D240 0 0 = 65535 ∧
    ¬ rectX1 D240 0 0 < D240.width ∧
    (set_columns D240 (clampX D240 0) (rectX1 D240 0 0)).2 = [] := by
  decide

/-- C1 amended: for `x < width`, `y < height`, positive `w` and `h`, and
no 16-bit overflow in `x + w` and `y + h`, the window `draw_solid_rect`
programs is clamped to the surface — `x ≤ x1 < width`, `y ≤ y1 < height` —
and neither `set_columns` nor `set_rows` inside `set_window` rejects.
(For `w = 0`/`h = 0` or overflowing `x + w`/`y + h` the wrapping 16-bit
end coordinate falls outside these bounds and the programming is
rejected.) -/
theorem draw_solid_rect_window_in_bounds (d : Display) (x y w h : Nat)
    (hW : d.width < U16) (hH : d.height < U16)
    (hx : x < d.width) (hy : y < d.height)
    (hw : 1 ≤ w) (hh : 1 ≤ h)
    (hxw : x + w < U16) (hyh : y + h < U16) :
    clampX d x = x ∧ clampY d y = y ∧
    x ≤ rectX1 d x w ∧ rectX1 d x w < d.width ∧
    y ≤ rectY1 d y h ∧ rectY1 d y h < d.height ∧
    (set_columns d x (rectX1 d x w)).2 ≠ [] ∧
    (set_rows d y (rectY1 d y h)).2 ≠ [] := by
  have hu : U16 = 65536 := rfl
  have hcx : clampX d x = x := if_neg (by omega)
  have hcy : clampY d y = y := if_neg (by omega)
  have hx1 : x ≤ rectX1 d x w ∧ rectX1 d x w < d.width := by
    unfold rectX1 clampW
    rw [hcx]
    by_cases hc : add16 x w ≥ d.width
    · rw [if_pos hc, sub16_of_le d.width x (le_of_lt hx) hW,
        add16_of_lt x (d.width - x) (by omega),
        show x + (d.width - x) = d.width by omega,
        sub16_one d.width hW]
      split <;> omega
    · rw [if_neg hc]
      rw [add16_of_lt x w hxw] at hc ⊢
      rw [sub16_one (x + w) hxw]
      split <;> omega
  have hy1 : y ≤ rectY1 d y h ∧ rectY1 d y h < d.height := by
    unfold rectY1 clampH
    rw [hcy]
    by_cases hc : add16 y h ≥ d.height
    · rw [if_pos hc, sub16_of_le d.height y (le_of_lt hy) hH,
        add16_of_lt y (d.height - y) (by omega),
        show y + (d.height - y) = d.height by omega,
        sub16_one d.height hH]
      split <;> omega
    · rw [if_neg hc]
      rw [add16_of_lt y h hyh] at hc ⊢
      rw [sub16_one (y + h) hyh]
      split <;> omega
  refine ⟨hcx, hcy, hx1.1, hx1.2, hy1.1, hy1.2, ?_, ?_⟩
  · unfold set_columns
    rw [if_neg (by omega)]
    simp
  · unfold set_rows
    rw [if_neg (by omega)]
    simp

/-- C1 witness: a concrete oversize rectangle at an in-range origin is
clamped to an in-bounds window and neither programming call rejects. -/
theorem draw_solid_rect_window_in_bounds_witness :
    clampX D240 10 = 10 ∧ clampY D240 20 = 20 ∧
    10 ≤ rectX1 D240 10 300 ∧ rectX1 D240 10 300 < D240.width ∧
    20 ≤ rectY1 D240 20 5 ∧ rectY1 D240 20 5 < D240.height ∧
    (set_columns D240 10 (rectX1 D240 10 300)).2 ≠ [] ∧
    (set_rows D240 20 (rectY1 D240 20 5)).2 ≠ [] :=
  draw_solid_rect_window_in_bounds D240 10 20 300 5 (by decide) (by decide)
    (by decide) (by decide) (by decide) (by decide) (by decide) (by decide)

/-- C10 counterexample: at `x = 3` (in range) with `w = 0`, the wrapping
end coordinate `x + w - 1` is 2, not 65535 as the claim states for every
`x < width`; the programming is still rejected (start 3 > end 2). -/
theorem draw_zero_width_end_not_65535 :
    rectX1 D240 3 0 = 2 ∧
    rectX1 D240 3 0 ≠ 65535 ∧
    (set_columns D240 (clampX D240 3) (rectX1 D240 3 0)).2 = [] := by
  decide

/-- C10 amended: with a non-sentinel color mode, `x < width`, `y <
height`, a zero `w` (resp. `h`) makes `draw_solid_rect` compute the
window end coordinate with wrapping 16-bit arithmetic — 65535 when the
start is 0, start - 1 otherwise — so the column (resp. row) programming
is rejected; the memory-write command is still issued (it is the last
event) and zero per-pixel data transfers follow. -/
theorem draw_solid_rect_zero_size (d : Display) (x y w h color : Nat)
    (hW : d.width < U16) (hH : d.height < U16)
    (hb : d.bpp ≠ DisplayColorModeBPP.UNKNOWN)
    (hx : x < d.width) (hy : y < d.height) :
    (w = 0 →
      rectX1 d x w = (if x = 0 then 65535 else x - 1) ∧
      (set_columns d (clampX d x) (rectX1 d x w)).2 = [] ∧
      rectPixelCount d x y w h = 0 ∧
      (draw_solid_rect d x y w h color).2.getLast? =
        some (Event.cmd DisplayCommand.RAMWR)) ∧
    (h = 0 →
      rectY1 d y h = (if y = 0 then 65535 else y - 1) ∧
      (set_rows d (clampY d y) (rectY1 d y h)).2 = [] ∧
      rectPixelCount d x y w h = 0 ∧
      (draw_solid_rect d x y w h color).2.getLast? =
        some (Event.cmd DisplayCommand.RAMWR)) := by
  have hu : U16 = 65536 := rfl
  have hcx : clampX d x = x := if_neg (by omega)
  have hcy : clampY d y = y := if_neg (by omega)
  constructor
  · intro hw0
    subst hw0
    have hcw : clampW d x 0 = 0 := by
      unfold clampW
      rw [hcx, add16_self_of_lt x (by omega)]
      exact if_neg (by omega)
    have hx1 : rectX1 d x 0 = if x = 0 then 65535 else x - 1 := by
      unfold rectX1
      rw [hcx, hcw, add16_self_of_lt x (by omega), sub16_one x (by omega)]
    have hcnt : rectPixelCount d x y 0 h = 0 := by
      unfold rectPixelCount mul16
      rw [hcw]
      simp
    refine ⟨hx1, ?_, hcnt, ?_⟩
    · unfold set_columns
      rw [hcx, hx1]
      refine if_pos ?_
      split <;> omega
    · unfold draw_solid_rect
      rw [if_neg hb, hcnt]
      simp [set_window]
  · intro hh0
    subst hh0
    have hch : clampH d y 0 = 0 := by
      unfold clampH
      rw [hcy, add16_self_of_lt y (by omega)]
      exact if_neg (by omega)
    have hy1 : rectY1 d y 0 = if y = 0 then 65535 else y - 1 := by
      unfold rectY1
      rw [hcy, hch, add16_self_of_lt y (by omega), sub16_one y (by omega)]
    have hcnt : rectPixelCount d x y w 0 = 0 := by
      unfold rectPixelCount mul16
      rw [hch]
      simp
    refine ⟨hy1, ?_, hcnt, ?_⟩
    · unfold set_rows
      rw [hcy, hy1]
      refine if_pos ?_
      split <;> omega
    · unfold draw_solid_rect
      rw [if_neg hb, hcnt]
      simp [set_window]

/-- C10 witness: at origin 0 with `w = 0` the wrapped end is 65535, the
column programming rejects, zero pixels are streamed, and RAMWR is still
the final event. -/
theorem draw_solid_rect_zero_size_witness :
    rectX1 D240 0 0 = (if (0 : Nat) = 0 then 65535 else 0 - 1) ∧
    (set_columns D240 (clampX D240 0) (rectX1 D240 0 0)).2 = [] ∧
    rectPixelCount D240 0 7 0 5 = 0 ∧
    (draw_solid_rect D240 0 7 0 5 9).2.getLast? =
      some (Event.cmd DisplayCommand.RAMWR) :=
  (draw_solid_rect_zero_size D240 0 7 0 5 9 (by decide) (by decide)
    (by decide) (by decide) (by decide)).1 rfl

theorem draw_text_go_oob (d : Display) (font : Font) (x cw ch : Nat) :
    ∀ cs : List Nat, (∃ c ∈ cs, c ≠ 0x0A ∧ font.length ≤ c) →
      ∀ rx ry, draw_text_go d font x cw ch cs rx ry = none := by
  intro cs
  induction cs with
  | nil =>
    rintro ⟨c, hc, -, -⟩ rx ry
    cases hc
  | cons a as ih =>
    rintro ⟨c, hc, h10, hlen⟩ rx ry
    unfold draw_text_go
    by_cases ha : a = 0x0A
    · rw [if_pos ha]
      refine ih ⟨c, ?_, h10, hlen⟩ x (add16 ry ch)
      rcases List.mem_cons.1 hc with h | h
      · exact absurd (h.trans ha) h10
      · exact h
    · rw [if_neg ha]
      rcases List.mem_cons.1 hc with h | h
      · subst h
        rw [show fontLookup font c = none from List.get?_eq_none.2 hlen]
        rfl
      · cases hfl : fontLookup font a with
        | none => rfl
        | some glyph =>
          simp only [Option.some_bind]
          rw [ih ⟨c, h, h10, hlen⟩]
          rfl

theorem draw_text_go_total (d : Display) (font : Font) (x cw ch : Nat) :
    ∀ cs : List Nat, (∀ c ∈ cs, c < font.length) →
      ∀ rx ry, (draw_text_go d font x cw ch cs rx ry).isSome = true := by
  intro cs
  induction cs with
  | nil =>
    intro _ rx ry
    rfl
  | cons a as ih =>
    intro hall rx ry
    unfold draw_text_go
    by_cases ha : a = 0x0A
    · rw [if_pos ha]
      exact ih (fun c hc => hall c (List.mem_cons_of_mem _ hc)) x (add16 ry ch)
    · rw [if_neg ha]
      have hlt : a < font.length := hall a (List.mem_cons_self _ _)
      obtain ⟨glyph, hg⟩ : ∃ g, fontLookup font a = some g := by
        cases hfl : fontLookup font a with
        | none =>
          have := List.get?_eq_none.1 hfl
          omega
        | some g => exact ⟨g, rfl⟩
      rw [hg]
      simp only [Option.some_bind]
      have hrest := ih (fun c hc => hall c (List.mem_cons_of_mem _ hc))
      cases hrec : draw_text_go d font x cw ch as
          (add16 (drawGlyphRows d cw glyph rx ry).2.1 cw)
          (sub16 (drawGlyphRows d cw glyph rx ry).2.2 ch) with
      | none =>
        have := hrest (add16 (drawGlyphRows d cw glyph rx ry).2.1 cw)
          (sub16 (drawGlyphRows d cw glyph rx ry).2.2 ch)
        rw [hrec] at this
        cases this
      | some rest => rfl

/-- C9 counterexample: the newline code 0x0A never reaches the font
lookup, so for a table whose length the code 0x0A exceeds the error
branch is not reached — `draw_text` succeeds. -/
theorem draw_text_newline_skips_lookup :
    draw_text D240 [] 0 0 [0x0A] = some [] ∧
    ([] : Font).length ≤ 0x0A :=
  ⟨rfl, by decide⟩

/-- C9 amended: `draw_text` indexes the font table directly by the raw
character code; if the text contains a non-newline character whose code
is at least the table's length, the lookup's error branch is reached and
the whole rendering returns `none`; under the precondition that every
character code is below the table's length the lookup never fails. -/
theorem draw_text_font_indexing (d : Display) (font : Font) (x y : Nat)
    (text : List Nat) :
    ((∃ c ∈ text, c ≠ 0x0A ∧ font.length ≤ c) →
      draw_text d font x y text = none) ∧
    ((∀ c ∈ text, c < font.length) →
      (draw_text d font x y text).isSome = true) :=
  ⟨fun hex => draw_text_go_oob d font x (mul16 8 d.text.pixel_width)
      (mul16 8 d.text.pixel_height) text hex x y,
   fun hall => draw_text_go_total d font x (mul16 8 d.text.pixel_width)
      (mul16 8 d.text.pixel_height) text hall x y⟩

/-- C9 witness: code 5 against a one-glyph table fails the lookup; code 0
against the same table renders successfully. -/
theorem draw_text_font_indexing_witness :
    draw_text D240 [[0, 0, 0, 0, 0, 0, 0, 0]] 0 0 [5] = none ∧
    (draw_text D240 [[0, 0, 0, 0, 0, 0, 0, 0]] 0 0 [0]).isSome = true :=
  ⟨(draw_text_font_indexing D240 [[0, 0, 0, 0, 0, 0, 0, 0]] 0 0 [5]).1
      ⟨5, by decide, by decide, by decide⟩,
   (draw_text_font_indexing D240 [[0, 0, 0, 0, 0, 0, 0, 0]] 0 0 [0]).2
      (by decide)⟩

end ST7789
